import Mathlib

/-!
Verification development for the worker-synchronization engine.

The engine reconciles worker records between an upstream event source and an
access-control system.  This file gives a shallow embedding of its core:

* `src/processors/image_processor.py` — the biometric admission gate
  (`get_face_encoding`, `compare_faces`, `find_duplicate_faces`); the black-box
  face encoder and the distance function are parameters of the environment.
* `src/processors/event_processor.py` — event dispatch and the per-worker
  lifecycle transitions (`process_single_event`, `handle_worker_created`,
  `handle_worker_blocked`, `handle_worker_deleted`, `handle_worker_unblocked`).
* `src/database.py` — the local reconciliation store (`get_by_national_id`,
  `upsert_worker`, `update`), modelled as a list of records with the exact
  field-merge semantics of the JSON store (the internal bookkeeping stamps
  `_created_at` and `_updated_at`, which no code reads, are omitted).
* `src/api/hikcentral_api.py` — the canonical string-to-sign construction
  (`_generate_signature`, `_get_authenticated_headers`), the envelope handling
  of `_make_request`, and the response parsing of `add_person`.

Side effects (HTTP, file system, clock, the face encoder) are supplied by an
explicit environment; a run of a handler returns the new store contents plus
the trace of outbound remote calls.  Python string values that may be absent
are `Option String` (`none` models a missing key, `some ""` a key that is
present but empty), matching the `dict.get` idiom of the source.
-/

/-- Python truthiness of an optional string: a missing key (`None`) and an
empty string are falsy, every other string is truthy. -/
def truthy : Option String → Bool
  | none => false
  | some s => !s.isEmpty

/-- Python `a or b` for two optional strings: the first operand when it is
truthy, otherwise the second (used for `d.get(k1) or d.get(k2)`). -/
def pyOr (a b : Option String) : Option String :=
  if truthy a then a else b

/-! ### Calendar arithmetic

`handle_worker_created` uses `datetime.strptime`, `datetime.fromisoformat`,
`strftime` and `timedelta(days=3650)`.  Dates are modelled on the proleptic
Gregorian calendar; day arithmetic goes through the standard civil-from-days
conversion, exactly the arithmetic of `datetime.timedelta` on wall-clock
fields. -/

/-- A wall-clock timestamp as carried by a Python `datetime` value
(fractional seconds and the timezone attribute are dropped because the code
formats with `%Y-%m-%dT%H:%M:%S`, which never prints them). -/
structure DateTime where
  year : Nat
  month : Nat
  day : Nat
  hour : Nat
  minute : Nat
  second : Nat
deriving DecidableEq, Repr

def isLeap (y : Nat) : Bool :=
  (y % 4 == 0 && y % 100 != 0) || y % 400 == 0

def daysInMonth (y m : Nat) : Nat :=
  if m == 2 then (if isLeap y then 29 else 28)
  else if m == 4 || m == 6 || m == 9 || m == 11 then 30
  else 31

/-- Days since 1970-01-01 of a civil date (Gregorian calendar).  Division on
`Int` in Lean is Euclidean, i.e. floor division for the positive divisors
used here, exactly the floor division of Python. -/
def daysFromCivil (y m d : Int) : Int :=
  let y2 := if m ≤ 2 then y - 1 else y
  let era := y2 / 400
  let yoe := y2 - era * 400
  let mp := (m + 9) % 12
  let doy := (153 * mp + 2) / 5 + d - 1
  let doe := yoe * 365 + yoe / 4 - yoe / 100 + doy
  era * 146097 + doe - 719468

/-- Civil date (year, month, day) of a count of days since 1970-01-01. -/
def civilFromDays (z0 : Int) : Int × Int × Int :=
  let z := z0 + 719468
  let era := z / 146097
  let doe := z - era * 146097
  let yoe := (doe - doe / 1460 + doe / 36524 - doe / 146096) / 365
  let y := yoe + era * 400
  let doy := doe - (365 * yoe + yoe / 4 - yoe / 100)
  let mp := (5 * doy + 2) / 153
  let d := doy - (153 * mp + 2) / 5 + 1
  let m := if mp < 10 then mp + 3 else mp - 9
  (if m ≤ 2 then y + 1 else y, m, d)

/-- `dt + timedelta(days=n)`: the date moves by `n` days, the time of day is
unchanged. -/
def DateTime.addDays (dt : DateTime) (n : Nat) : DateTime :=
  let c := civilFromDays (daysFromCivil dt.year dt.month dt.day + n)
  { dt with year := c.1.toNat, month := c.2.1.toNat, day := c.2.2.toNat }

def pad2 (n : Nat) : String :=
  if n < 10 then "0" ++ toString n else toString n

def pad4 (n : Nat) : String :=
  if n < 10 then "000" ++ toString n
  else if n < 100 then "00" ++ toString n
  else if n < 1000 then "0" ++ toString n
  else toString n

/-- `strftime` with format `%Y-%m-%d` of a (year, month, day) triple. -/
def fmtYMD (c : Nat × Nat × Nat) : String :=
  pad4 c.1 ++ "-" ++ pad2 c.2.1 ++ "-" ++ pad2 c.2.2

/-- `dt.strftime` with format `%Y-%m-%dT%H:%M:%S`. -/
def DateTime.strftimeFull (dt : DateTime) : String :=
  fmtYMD (dt.year, dt.month, dt.day) ++ "T" ++
    pad2 dt.hour ++ ":" ++ pad2 dt.minute ++ ":" ++ pad2 dt.second

/-- Split a character list at every occurrence of `c` (like `str.split(c)`). -/
def splitOnChar (c : Char) : List Char → List (List Char)
  | [] => [[]]
  | x :: xs =>
    let r := splitOnChar c xs
    if x == c then [] :: r
    else
      match r with
      | h :: t => (x :: h) :: t
      | [] => [[x]]

def isDigits (cs : List Char) : Bool :=
  !cs.isEmpty && cs.all Char.isDigit

def natOfDigits (cs : List Char) : Nat :=
  cs.foldl (fun a c => a * 10 + (c.toNat - 48)) 0

/-- `datetime.strptime` of `s` with format `%Y-%m-%d`, as an `Option`:
`none` models the `ValueError` the source catches. -/
def parseYMD (s : String) : Option (Nat × Nat × Nat) :=
  match splitOnChar '-' s.toList with
  | [ys, ms, ds] =>
    if isDigits ys && isDigits ms && isDigits ds then
      let y := natOfDigits ys
      let m := natOfDigits ms
      let d := natOfDigits ds
      if 1 ≤ m ∧ m ≤ 12 ∧ 1 ≤ d ∧ d ≤ daysInMonth y m then some (y, m, d) else none
    else none
  | _ => none

def parseHMS (cs : List Char) : Option (Nat × Nat × Nat) :=
  match splitOnChar ':' cs with
  | [hs, ms, ss] =>
    if isDigits hs && isDigits ms && isDigits ss &&
        hs.length == 2 && ms.length == 2 && ss.length == 2 then
      let h := natOfDigits hs
      let mi := natOfDigits ms
      let sec := natOfDigits ss
      if h ≤ 23 ∧ mi ≤ 59 ∧ sec ≤ 59 then some (h, mi, sec) else none
    else none
  | _ => none

/-- A `±HH:MM` UTC-offset suffix. -/
def validOffset : List Char → Bool
  | [s, h1, h2, c, m1, m2] =>
    (s == '+' || s == '-') && h1.isDigit && h2.isDigit && c == ':' &&
      m1.isDigit && m2.isDigit
  | _ => false

/-- The tail of an ISO timestamp after `HH:MM:SS`: empty, a fractional-second
part, an offset, or a fraction followed by an offset. -/
def validTail : List Char → Bool
  | [] => true
  | '.' :: rest =>
    let frac := rest.takeWhile Char.isDigit
    let after := rest.dropWhile Char.isDigit
    decide (1 ≤ frac.length ∧ frac.length ≤ 6) && (after.isEmpty || validOffset after)
  | cs => validOffset cs

/-- `datetime.fromisoformat`, restricted to the shapes the engine meets:
`YYYY-MM-DD` optionally followed by a `T`/space separator, `HH:MM:SS`, an
optional fractional-second part and an optional `±HH:MM` offset.  Only the
wall-clock fields are kept, matching what `strftime` with format
`%Y-%m-%dT%H:%M:%S` later prints.  `none` models the `ValueError` raised on malformed input. -/
def parse_iso_datetime (s : String) : Option DateTime :=
  let cs := s.toList
  match parseYMD (String.mk (cs.take 10)) with
  | none => none
  | some ymd =>
    match cs.drop 10 with
    | [] => some ⟨ymd.1, ymd.2.1, ymd.2.2, 0, 0, 0⟩
    | sep :: rest =>
      if sep == 'T' || sep == ' ' then
        match parseHMS (rest.take 8) with
        | none => none
        | some hms =>
          if validTail (rest.drop 8) then
            some ⟨ymd.1, ymd.2.1, ymd.2.2, hms.1, hms.2.1, hms.2.2⟩
          else none
      else none

/-- Python `str.replace` of every `Z` by `+00:00`, applied by
`handle_worker_created` before parsing `createdAt`. -/
def replaceZ (s : String) : String :=
  String.mk (s.toList.foldr (fun c acc =>
    if c == 'Z' then '+' :: '0' :: '0' :: ':' :: '0' :: '0' :: acc else c :: acc) [])

/-- Round the fraction `n / d` (with `0 < d`) to the nearest integer, ties
to even — the rounding of Python string formatting.  `n / d` with Euclidean
division is the floor; twice the remainder against the denominator decides
the direction. -/
def roundHalfEvenFrac (n d : Int) : Int :=
  let f := n / d
  let r2 := 2 * (n % d)
  if r2 < d then f
  else if d < r2 then f + 1
  else if f % 2 = 0 then f else f + 1

/-- Python `f"{q:.1%}"`: the value as a percentage with one decimal digit
(the scaling by 1000 is done on the numerator so that concrete values
evaluate by kernel reduction). -/
def fmtPct1 (q : ℚ) : String :=
  let n := roundHalfEvenFrac (q.num * 1000) (q.den : Int)
  toString (n / 10) ++ "." ++ toString (n % 10) ++ "%"

/-- `1 - b` on rationals, written as an explicitly normalized fraction so
that concrete similarity scores evaluate by kernel reduction (the library
subtraction is irreducible). -/
def ratOneSub (b : ℚ) : ℚ := mkRat ((b.den : Int) - b.num) b.den


/-! ### Data model

Worker payloads and store records.  A payload field is `none` when the key is
missing from the event dict and `some s` when it is present with value `s`. -/

/-- The fields of a worker payload that the engine consumes
(`handle_worker_*` in `src/processors/event_processor.py`). -/
structure WorkerData where
  nationalIdNumber : Option String := none
  workerId : Option String := none
  id : Option String := none
  facePhoto : Option String := none
  facePhotoUrl : Option String := none
  nationalIdImage : Option String := none
  idCardImageUrl : Option String := none
  fullName : Option String := none
  phoneNumber : Option String := none
  email : Option String := none
  validFrom : Option String := none
  validTo : Option String := none
  createdAt : Option String := none
  blockedReason : Option String := none
deriving DecidableEq, Repr

/-- Python dict truthiness of a payload: the dict is truthy when it has at
least one key. -/
def WorkerData.hasAnyField (w : WorkerData) : Bool :=
  w.nationalIdNumber.isSome || w.workerId.isSome || w.id.isSome ||
  w.facePhoto.isSome || w.facePhotoUrl.isSome || w.nationalIdImage.isSome ||
  w.idCardImageUrl.isSome || w.fullName.isSome || w.phoneNumber.isSome ||
  w.email.isSome || w.validFrom.isSome || w.validTo.isSome ||
  w.createdAt.isSome || w.blockedReason.isSome

/-- A record of the local JSON store (`data/workers.json`), with the fields
the engine writes.  Optional fields are absent until the corresponding
transition first writes them. -/
structure WorkerRecord where
  workerId : String
  nationalIdNumber : String
  fullName : String
  phoneNumber : String
  email : String
  status : String
  hikcentral_person_id : String
  face_image_path : String
  id_card_image_path : String
  has_privilege_access : Bool
  created_at : String
  blockedReason : Option String := none
  blocked_at : Option String := none
  unblocked_at : Option String := none
  deleted_at : Option String := none
deriving DecidableEq, Repr

/-- The dict literal both `upsert_worker` call sites of
`handle_worker_created` pass: exactly these eleven keys. -/
structure CreatedFields where
  workerId : String
  nationalIdNumber : String
  fullName : String
  phoneNumber : String
  email : String
  status : String
  hikcentral_person_id : String
  face_image_path : String
  id_card_image_path : String
  has_privilege_access : Bool
  created_at : String
deriving DecidableEq, Repr

/-- Field-level merge of the creation dict into an existing record
(`Database.update`: every supplied key overwrites, unrelated keys survive). -/
def applyCreated (r : WorkerRecord) (f : CreatedFields) : WorkerRecord :=
  { r with
    workerId := f.workerId
    nationalIdNumber := f.nationalIdNumber
    fullName := f.fullName
    phoneNumber := f.phoneNumber
    email := f.email
    status := f.status
    hikcentral_person_id := f.hikcentral_person_id
    face_image_path := f.face_image_path
    id_card_image_path := f.id_card_image_path
    has_privilege_access := f.has_privilege_access
    created_at := f.created_at }

/-- A fresh record inserted for the creation dict (`Database.insert`). -/
def CreatedFields.fresh (f : CreatedFields) : WorkerRecord :=
  { workerId := f.workerId
    nationalIdNumber := f.nationalIdNumber
    fullName := f.fullName
    phoneNumber := f.phoneNumber
    email := f.email
    status := f.status
    hikcentral_person_id := f.hikcentral_person_id
    face_image_path := f.face_image_path
    id_card_image_path := f.id_card_image_path
    has_privilege_access := f.has_privilege_access
    created_at := f.created_at }

/-- `WorkersDatabase.get_by_national_id`: first record whose
`nationalIdNumber` equals the (possibly missing) query value. -/
def get_by_national_id (db : List WorkerRecord) (nid : Option String) :
    Option WorkerRecord :=
  db.find? (fun r => (some r.nationalIdNumber : Option String) == nid)

/-- `WorkersDatabase.upsert_worker`: merge into every record matching the
payload key if one exists, else append a fresh record. -/
def upsert_worker (db : List WorkerRecord) (f : CreatedFields) : List WorkerRecord :=
  if db.any (fun r => r.nationalIdNumber == f.nationalIdNumber) then
    db.map (fun r => if r.nationalIdNumber == f.nationalIdNumber then applyCreated r f else r)
  else db ++ [f.fresh]

/-- `Database.update` as used by the block/unblock/delete transitions: apply
the field update to every record matching the national-id query. -/
def update_where (db : List WorkerRecord) (nid : Option String)
    (f : WorkerRecord → WorkerRecord) : List WorkerRecord :=
  db.map (fun r => if (some r.nationalIdNumber : Option String) == nid then f r else r)

/-! ### Remote calls and the environment -/

/-- The arguments of one `HikCentralAPI.add_person` call as issued by
`handle_worker_created` (`gender` is the constant `1` there). -/
structure AddPersonCall where
  person_code : String
  family_name : String
  given_name : String
  gender : Nat
  phone_no : String
  email : String
  face_data : String
  begin_time : String
  end_time : String
deriving DecidableEq, Repr

/-- The arguments of one `SupabaseAPI.update_worker_status` call. -/
structure StatusUpdate where
  worker_id : Option String := none
  national_id_number : Option String := none
  status : String
  external_id : Option String := none
  blocked_reason : Option String := none
deriving DecidableEq, Repr

/-- One outbound remote call recorded in a run trace. -/
inductive RemoteCall where
  | addPerson : AddPersonCall → RemoteCall
  | addToPrivilegeGroup : String → RemoteCall
  | removeFromPrivilegeGroup : String → RemoteCall
  | deletePerson : String → RemoteCall
  | updateWorkerStatus : StatusUpdate → RemoteCall
deriving DecidableEq, Repr

/-- The effectful collaborators of the event processor: the black-box face
encoder and distance metric, configuration, the image cache, the two remote
systems and the clock.  Feature vectors are lists of rationals; similarity
scores are exact rationals standing for the floats of the source. -/
structure Env where
  face_encodings : String → List (List ℚ)
  distance : List ℚ → List ℚ → ℚ
  similarity_threshold : ℚ
  download_image : String → String → Bool
  path_exists : String → Bool
  image_to_base64 : String → String
  add_person : AddPersonCall → Option String
  add_to_privilege_group : String → Bool
  remove_from_privilege_group : String → Bool
  delete_person : String → Bool
  update_worker_status : StatusUpdate → Bool
  now_utc : String
  now_local : DateTime
  faces_dir : String
  id_cards_dir : String

/-! ### Admission gate (`src/processors/image_processor.py`) -/

/-- `ImageProcessor.get_face_encoding`: `None` when no face is detected (or
the image is unreadable — the caught exception path); otherwise the first of
the detected encodings, even when there are several. -/
def get_face_encoding (env : Env) (image_path : String) : Option (List ℚ) :=
  match env.face_encodings image_path with
  | [] => none
  | e :: _ => some e

/-- `ImageProcessor.compare_faces`: best (smallest) distance against the
known encodings, similarity `1 - distance`, match iff the similarity reaches
the threshold.  An empty known list yields `(False, 0.0)`. -/
def compare_faces (env : Env) (face_encoding : List ℚ)
    (known_encodings : List (List ℚ)) : Bool × ℚ :=
  match known_encodings with
  | [] => (false, 0)
  | k :: ks =>
    let d0 := env.distance k face_encoding
    let best := (ks.map (fun kk => env.distance kk face_encoding)).foldl min d0
    let similarity := ratOneSub best
    (decide (env.similarity_threshold ≤ similarity), similarity)

/-- Stable insertion into a list sorted by similarity descending. -/
def insertDesc (x : String × ℚ) : List (String × ℚ) → List (String × ℚ)
  | [] => [x]
  | y :: ys => if y.2 ≤ x.2 then x :: y :: ys else y :: insertDesc x ys

/-- `matches.sort(key=lambda x: x[1], reverse=True)`: stable, descending by
similarity. -/
def sortDesc : List (String × ℚ) → List (String × ℚ)
  | [] => []
  | x :: xs => insertDesc x (sortDesc xs)

/-- `ImageProcessor.find_duplicate_faces`: encode the candidate (an encoding
failure yields the empty list), compare against every known image (skipping
those whose own encoding fails), keep the matches above threshold, sort them
by similarity descending. -/
def find_duplicate_faces (env : Env) (new_face_path : String)
    (existing_faces : List String) : List (String × ℚ) :=
  match get_face_encoding env new_face_path with
  | none => []
  | some new_encoding =>
    let found := existing_faces.foldl (fun acc existing_path =>
      match get_face_encoding env existing_path with
      | none => acc
      | some existing_encoding =>
        let r := compare_faces env new_encoding [existing_encoding]
        if r.1 then acc ++ [(existing_path, r.2)] else acc) []
    sortDesc found

/-! ### Creation transition (`EventProcessor.handle_worker_created`) -/

/-- The Arabic block reason written when the admission gate reports a
duplicate: face matching another worker, suspected fraud, with the top
similarity formatted as a percentage with one decimal. -/
def dupReason (similarity : ℚ) : String :=
  "وجه مطابق لعامل آخر - احتمال تزوير (تشابه: " ++ fmtPct1 similarity ++ ")"

/-- The already-synchronized guard of `handle_worker_created`:
`existing` is truthy and its `hikcentral_person_id` is truthy. -/
def already_synced (db : List WorkerRecord) (nid : Option String) : Bool :=
  match get_by_national_id db nid with
  | some r => r.hikcentral_person_id != ""
  | none => false

/-- The list of cached face images the gate is run against: every stored
record whose `face_image_path` is non-empty and still exists on disk. -/
def cached_face_paths (env : Env) (db : List WorkerRecord) : List String :=
  (db.filter (fun w => w.face_image_path != "" && env.path_exists w.face_image_path)).map
    (fun w => w.face_image_path)

/-- Lines 218-259 of `handle_worker_created`: the access-validity window.
Explicit `validFrom`/`validTo` dates win (start of day to end of day at the
fixed `+02:00` offset); a parse error falls through to the `createdAt`
fallback (timestamp to timestamp plus 3650 days); with no usable `createdAt`
the current time is used.  `none` models the uncaught `ValueError` of
`fromisoformat` on a malformed `createdAt` (the transition is then abandoned
by the surrounding `except`). -/
def derive_validity_window (validFrom validTo createdAt : Option String)
    (now : DateTime) : Option (String × String) :=
  let fromDates :=
    if truthy validFrom && truthy validTo then
      match parseYMD (validFrom.getD ""), parseYMD (validTo.getD "") with
      | some f, some t =>
        some (fmtYMD f ++ "T00:00:00" ++ "+02:00", fmtYMD t ++ "T23:59:59" ++ "+02:00")
      | _, _ => none
    else none
  match fromDates with
  | some w => some w
  | none =>
    if truthy createdAt then
      match parse_iso_datetime (replaceZ (createdAt.getD "")) with
      | some dt =>
        some (dt.strftimeFull ++ "+02:00", (dt.addDays 3650).strftimeFull ++ "+02:00")
      | none => none
    else
      some (now.strftimeFull ++ "+02:00", (now.addDays 3650).strftimeFull ++ "+02:00")

/-- Python `full_name.split` at the first space: the part before it. -/
def familyNameOf (full_name : String) : String :=
  String.mk (full_name.toList.takeWhile (fun c => c != ' '))

/-- Python `full_name.split` at the first space: the part after it when a
space exists, else the empty string. -/
def givenNameOf (full_name : String) : String :=
  match full_name.toList.dropWhile (fun c => c != ' ') with
  | [] => ""
  | _ :: rest => String.mk rest

/-- `EventProcessor.handle_worker_created`, step by step: validate the
identity fields, stop when already provisioned, cache the face image, run
the admission gate, derive the validity window, call `add_person`, on its
success call `add_to_privilege_group`, persist the record and report the
status upstream.  Returns the new store contents and the trace of outbound
remote calls. -/
def handle_worker_created (env : Env) (db : List WorkerRecord) (wd : WorkerData) :
    List WorkerRecord × List RemoteCall :=
  let national_id := wd.nationalIdNumber
  let worker_id := pyOr wd.workerId wd.id
  if !truthy national_id then (db, [])
  else if !truthy worker_id then (db, [])
  else if already_synced db national_id then (db, [])
  else
    let nid := national_id.getD ""
    let wid := worker_id.getD ""
    let face_url := pyOr wd.facePhoto wd.facePhotoUrl
    let id_card_url := pyOr wd.nationalIdImage wd.idCardImageUrl
    if !truthy face_url then (db, [])
    else
      let face_path := env.faces_dir ++ "/" ++ nid ++ "_face.jpg"
      let id_card_path := env.id_cards_dir ++ "/" ++ nid ++ "_id.jpg"
      if !env.download_image (face_url.getD "") face_path then (db, [])
      else
        -- the optional id-card download only logs; it has no observable effect
        let duplicates := find_duplicate_faces env face_path (cached_face_paths env db)
        match duplicates with
        | (_, s) :: _ =>
          (db, [RemoteCall.updateWorkerStatus
            { worker_id := some wid
              national_id_number := some nid
              status := "blocked"
              blocked_reason := some (dupReason s) }])
        | [] =>
          let face_base64 := env.image_to_base64 face_path
          if face_base64 == "" then (db, [])
          else
            match derive_validity_window wd.validFrom wd.validTo wd.createdAt env.now_local with
            | none => (db, [])
            | some w =>
              let full_name := wd.fullName.getD ""
              let call : AddPersonCall :=
                { person_code := wid
                  family_name := familyNameOf full_name
                  given_name := givenNameOf full_name
                  gender := 1
                  phone_no := wd.phoneNumber.getD ""
                  email := wd.email.getD ""
                  face_data := face_base64
                  begin_time := w.1
                  end_time := w.2 }
              let person_id := env.add_person call
              if !truthy person_id then
                (upsert_worker db
                  { workerId := wid
                    nationalIdNumber := nid
                    fullName := full_name
                    phoneNumber := wd.phoneNumber.getD ""
                    email := wd.email.getD ""
                    status := "pending"
                    hikcentral_person_id := ""
                    face_image_path := face_path
                    id_card_image_path := if truthy id_card_url then id_card_path else ""
                    has_privilege_access := false
                    created_at := env.now_utc },
                 [RemoteCall.addPerson call])
              else
                let pid := person_id.getD ""
                -- add_to_privilege_group result is only logged; the record
                -- below sets has_privilege_access regardless of it
                (upsert_worker db
                  { workerId := wid
                    nationalIdNumber := nid
                    fullName := full_name
                    phoneNumber := wd.phoneNumber.getD ""
                    email := wd.email.getD ""
                    status := "approved"
                    hikcentral_person_id := pid
                    face_image_path := face_path
                    id_card_image_path := if truthy id_card_url then id_card_path else ""
                    has_privilege_access := true
                    created_at := env.now_utc },
                 [RemoteCall.addPerson call,
                  RemoteCall.addToPrivilegeGroup pid,
                  RemoteCall.updateWorkerStatus
                    { worker_id := some wid
                      national_id_number := some nid
                      status := "approved"
                      external_id := some pid }])

/-! ### Block, delete, unblock transitions -/

/-- The default reason `handle_worker_blocked` substitutes for a missing
`blockedReason` key ("blocked by the system"). -/
def defaultBlockedReason : String := "تم الحظر بواسطة النظام"

/-- `EventProcessor.handle_worker_blocked`: a missing `blockedReason` key is
replaced by the default, the worker must exist locally with a remote person
id, access is revoked remotely and on success the record is marked blocked. -/
def handle_worker_blocked (env : Env) (db : List WorkerRecord) (wd : WorkerData) :
    List WorkerRecord × List RemoteCall :=
  let national_id := wd.nationalIdNumber
  let blocked_reason := wd.blockedReason.getD defaultBlockedReason
  match get_by_national_id db national_id with
  | none => (db, [])
  | some worker =>
    if worker.hikcentral_person_id == "" then (db, [])
    else if env.remove_from_privilege_group worker.hikcentral_person_id then
      (update_where db national_id (fun r =>
        { r with
          status := "blocked"
          blockedReason := some blocked_reason
          has_privilege_access := false
          blocked_at := some env.now_utc }),
       [RemoteCall.removeFromPrivilegeGroup worker.hikcentral_person_id])
    else (db, [RemoteCall.removeFromPrivilegeGroup worker.hikcentral_person_id])

/-- `EventProcessor.handle_worker_deleted`. -/
def handle_worker_deleted (env : Env) (db : List WorkerRecord) (wd : WorkerData) :
    List WorkerRecord × List RemoteCall :=
  let national_id := wd.nationalIdNumber
  match get_by_national_id db national_id with
  | none => (db, [])
  | some worker =>
    if worker.hikcentral_person_id == "" then (db, [])
    else if env.delete_person worker.hikcentral_person_id then
      (update_where db national_id (fun r =>
        { r with status := "deleted", deleted_at := some env.now_utc }),
       [RemoteCall.deletePerson worker.hikcentral_person_id])
    else (db, [RemoteCall.deletePerson worker.hikcentral_person_id])

/-- `EventProcessor.handle_worker_unblocked`. -/
def handle_worker_unblocked (env : Env) (db : List WorkerRecord) (wd : WorkerData) :
    List WorkerRecord × List RemoteCall :=
  let national_id := wd.nationalIdNumber
  let worker_id := wd.id
  match get_by_national_id db national_id with
  | none => (db, [])
  | some worker =>
    if worker.hikcentral_person_id == "" then (db, [])
    else if env.add_to_privilege_group worker.hikcentral_person_id then
      (update_where db national_id (fun r =>
        { r with
          status := "approved"
          blockedReason := some ""
          has_privilege_access := true
          unblocked_at := some env.now_utc }),
       [RemoteCall.addToPrivilegeGroup worker.hikcentral_person_id,
        RemoteCall.updateWorkerStatus
          { worker_id := worker_id
            national_id_number := national_id
            status := "approved"
            external_id := some worker.hikcentral_person_id }])
    else (db, [RemoteCall.addToPrivilegeGroup worker.hikcentral_person_id])

/-! ### Event dispatch (`EventProcessor.process_single_event`) -/

/-- The `data` dict of an event: either a worker payload itself (single
events) or a container of a `workers` list (bulk events). -/
structure EventData where
  self : WorkerData := {}
  workers : Option (List WorkerData) := none
deriving DecidableEq, Repr

/-- Python dict truthiness of the `data` dict. -/
def EventData.isTruthy (d : EventData) : Bool :=
  d.self.hasAnyField || d.workers.isSome

/-- An event as fetched from the upstream source, restricted to the keys the
dispatcher reads. -/
structure Event where
  type : Option String := none
  id : Option String := none
  workers : Option (List WorkerData) := none
  data : Option EventData := none
deriving DecidableEq, Repr

/-- The `workers` list of the `data` dict, else the empty list. -/
def dataWorkers (ev : Event) : List WorkerData :=
  match ev.data with
  | some d => d.workers.getD []
  | none => []

/-- Run a per-worker handler over a worker list, threading the store and
concatenating the call traces (the sequential `for worker in workers` loop). -/
def runMany (h : List WorkerRecord → WorkerData → List WorkerRecord × List RemoteCall)
    (db : List WorkerRecord) : List WorkerData → List WorkerRecord × List RemoteCall
  | [] => (db, [])
  | w :: ws =>
    let r1 := h db w
    let r2 := runMany h r1.1 ws
    (r2.1, r1.2 ++ r2.2)

/-- The `workers`-list-or-single-`data` shape shared by the `worker.created`,
`worker.blocked`, `worker.deleted` and `worker.unblocked` branches. -/
def singleOrList (h : List WorkerRecord → WorkerData → List WorkerRecord × List RemoteCall)
    (db : List WorkerRecord) (ev : Event) : List WorkerRecord × List RemoteCall :=
  let workers := ev.workers.getD []
  if !workers.isEmpty then runMany h db workers
  else
    match ev.data with
    | some d => if d.isTruthy then h db d.self else (db, [])
    | none => (db, [])

/-- The bulk shape shared by `workers.bulk_created`, `unit.workers_blocked`
and `unit.workers_unblocked`: `data.workers` first, else top-level `workers`. -/
def bulkList (h : List WorkerRecord → WorkerData → List WorkerRecord × List RemoteCall)
    (db : List WorkerRecord) (ev : Event) : List WorkerRecord × List RemoteCall :=
  let workers := dataWorkers ev
  let workers := if workers.isEmpty then ev.workers.getD [] else workers
  runMany h db workers

/-- `EventProcessor.process_single_event`: exact string comparison of the
event-type tag selects the transition; an unmatched tag (including a missing
one) is logged and dropped with no effect. -/
def process_single_event (env : Env) (db : List WorkerRecord) (ev : Event) :
    List WorkerRecord × List RemoteCall :=
  match ev.type with
  | none => (db, [])
  | some t =>
    if t == "worker.created" then singleOrList (handle_worker_created env) db ev
    else if t == "workers.bulk_created" then bulkList (handle_worker_created env) db ev
    else if t == "worker.blocked" then singleOrList (handle_worker_blocked env) db ev
    else if t == "unit.workers_blocked" then bulkList (handle_worker_blocked env) db ev
    else if t == "worker.deleted" || t == "user.expired_workers_deleted" ||
        t == "user.deleted_workers_deleted" then
      singleOrList (handle_worker_deleted env) db ev
    else if t == "worker.unblocked" then singleOrList (handle_worker_unblocked env) db ev
    else if t == "unit.workers_unblocked" then bulkList (handle_worker_unblocked env) db ev
    else (db, [])

/-- The tags `process_single_event` recognizes. -/
def recognized_event_type (t : String) : Bool :=
  t == "worker.created" || t == "workers.bulk_created" || t == "worker.blocked" ||
  t == "unit.workers_blocked" || t == "worker.deleted" ||
  t == "user.expired_workers_deleted" || t == "user.deleted_workers_deleted" ||
  t == "worker.unblocked" || t == "unit.workers_unblocked"

/-- `EventProcessor.process_events` on an already-fetched batch: strictly
sequential, every event processed even when an earlier one had no effect. -/
def process_events (env : Env) (db : List WorkerRecord) :
    List Event → List WorkerRecord × List RemoteCall
  | [] => (db, [])
  | ev :: rest =>
    let r1 := process_single_event env db ev
    let r2 := process_events env r1.1 rest
    (r2.1, r1.2 ++ r2.2)

/-! ### Signed RPC client (`src/api/hikcentral_api.py`)

Headers are a string dict; the MD5-base64 digest of a body is a black-box
function parameter, like the face encoder. -/

def hget (h : List (String × String)) (k : String) : Option String :=
  (h.find? (fun p => p.1 == k)).map (fun p => p.2)

def hgetD (h : List (String × String)) (k d : String) : String :=
  (hget h k).getD d

/-- `HikCentralAPI._generate_signature`, the canonical-string part: method,
`Accept`, a `Content-MD5` line only when that header exists, `Content-Type`,
the three lowercase `x-ca-*` lines, then the URI, joined by newlines.  The
`x-ca-*` lookups try the lowercase key first, then the capitalized one, and
would render a missing pair as Python `None` does. -/
def string_to_sign (method uri : String) (headers : List (String × String)) : String :=
  let parts := [method, hgetD headers "Accept" "application/json"]
  let parts := if (hget headers "Content-MD5").isSome then
      parts ++ [hgetD headers "Content-MD5" ""]
    else parts
  let parts := parts ++ [hgetD headers "Content-Type" "application/json;charset=UTF-8"]
  let xkey := match hget headers "x-ca-key" with
    | some v => v
    | none => match hget headers "X-Ca-Key" with | some v => v | none => "None"
  let xnonce := match hget headers "x-ca-nonce" with
    | some v => v
    | none => match hget headers "X-Ca-Nonce" with | some v => v | none => "None"
  let xts := match hget headers "x-ca-timestamp" with
    | some v => v
    | none => match hget headers "X-Ca-Timestamp" with | some v => v | none => "None"
  let parts := parts ++
    ["x-ca-key:" ++ xkey, "x-ca-nonce:" ++ xnonce, "x-ca-timestamp:" ++ xts, uri]
  String.intercalate "\n" parts

/-- `HikCentralAPI._get_authenticated_headers`: the fixed header set plus a
`Content-MD5` entry only when a (truthy) body string is given.  `contentMd5`
stands for `_get_content_md5`, the base64-encoded MD5 digest of the body. -/
def get_authenticated_headers (contentMd5 : String → String)
    (app_key user_id nonce timestamp : String) (body : Option String) :
    List (String × String) :=
  let headers := [("Accept", "application/json"),
    ("Content-Type", "application/json;charset=UTF-8"),
    ("X-Ca-Key", app_key),
    ("X-Ca-Nonce", nonce),
    ("X-Ca-Timestamp", timestamp),
    ("X-Ca-Signature-Headers", "x-ca-key,x-ca-nonce,x-ca-timestamp"),
    ("userId", user_id)]
  match body with
  | some b => if !b.isEmpty then headers ++ [("Content-MD5", contentMd5 b)] else headers
  | none => headers

/-- The canonical string `_make_request` signs for one request:
`body_str = none` models a request whose body dict is falsy (the source then
passes `None` to `_get_authenticated_headers` and signs an empty body). -/
def request_string_to_sign (contentMd5 : String → String)
    (app_key user_id nonce timestamp method endpoint : String)
    (body_str : Option String) : String :=
  string_to_sign method endpoint
    (get_authenticated_headers contentMd5 app_key user_id nonce timestamp body_str)

/-! ### Envelope handling (`_make_request`, `add_person`) -/

/-- A scalar JSON value of a response envelope. -/
inductive JVal where
  | str : String → JVal
  | num : Int → JVal
  | bool : Bool → JVal
  | null : JVal
deriving DecidableEq, Repr

/-- A JSON value one level deep: scalars, objects of scalars, arrays of
scalars — the shapes the envelope fields `code`, `msg` and `data` take. -/
inductive Json where
  | scalar : JVal → Json
  | obj : List (String × JVal) → Json
  | arr : List JVal → Json
deriving DecidableEq, Repr

/-- The parsed response envelope `{code, msg, data}` (an arbitrary JSON
object). -/
abbrev JObj := List (String × Json)

def JObj.get? (o : JObj) (k : String) : Option Json :=
  (o.find? (fun p => p.1 == k)).map (fun p => p.2)

def jdictGet (d : List (String × JVal)) (k : String) : Option JVal :=
  (d.find? (fun p => p.1 == k)).map (fun p => p.2)

def JVal.isTruthy : JVal → Bool
  | .str s => !s.isEmpty
  | .num n => n != 0
  | .bool b => b
  | .null => false

/-- The fallback chain over `personId`, `id` and `person_code`: the first
truthy operand, with the caller-supplied code as the last resort. -/
def jvalOr (a : Option JVal) (b : JVal) : JVal :=
  match a with
  | some v => if v.isTruthy then v else b
  | none => b

/-- The transport-level outcome of one HTTP exchange: a raised
`requests` exception (connection error, timeout), or a response with its
status code and parsed body (`none` for an empty response text). -/
inductive TransportResult where
  | failure : TransportResult
  | response : Nat → Option JObj → TransportResult
deriving DecidableEq, Repr

/-- `HikCentralAPI._make_request` after the request is sent: a truthy body
whose `code` differs from the string `"0"` fails; `raise_for_status` turns a
4xx/5xx status into the same caught-exception failure; a transport exception
fails; otherwise the parsed body is returned. -/
def make_request (tr : TransportResult) : Option JObj :=
  match tr with
  | .failure => none
  | .response status body =>
    let codeFail := match body with
      | some o => !o.isEmpty && (o.get? "code" != some (Json.scalar (JVal.str "0")))
      | none => false
    if codeFail then none
    else if 400 ≤ status ∧ status < 600 then none
    else body

/-- The response-parsing part of `HikCentralAPI.add_person`: a falsy result
fails; a dict `data` yields the first truthy of its `personId` field, its
`id` field and the caller-supplied `person_code`; any other `data` shape
fails. -/
def add_person (tr : TransportResult) (person_code : String) : Option JVal :=
  match make_request tr with
  | none => none
  | some result =>
    if result.isEmpty then none
    else
      match result.get? "data" with
      | some (Json.obj d) =>
        some (jvalOr (jdictGet d "personId") (jvalOr (jdictGet d "id") (JVal.str person_code)))
      | _ => none

/-! ## Claims -/

/-- The explicitly normalized `ratOneSub` agrees with rational subtraction
from one. -/
theorem ratOneSub_eq (b : ℚ) : ratOneSub b = 1 - b := by
  unfold ratOneSub
  rw [Rat.mkRat_eq_div]
  push_cast
  rw [sub_div, div_self, Rat.num_div_den]
  exact_mod_cast b.den_nz

/-- Claim C5: with no body, the canonical string to sign is the newline-join
of exactly method, Accept, Content-Type, `x-ca-key:<key>`,
`x-ca-nonce:<nonce>`, `x-ca-timestamp:<timestamp>` and the URI path — no
Content-MD5 line and no empty line in its place; with a body present, its
base64-encoded MD5 digest appears as one extra line between the Accept and
Content-Type lines. -/
theorem C5_canonical_string (contentMd5 : String → String)
    (ak uid nonce ts method uri : String) :
    (request_string_to_sign contentMd5 ak uid nonce ts method uri none =
      String.intercalate "\n"
        [method, "application/json", "application/json;charset=UTF-8",
         "x-ca-key:" ++ ak, "x-ca-nonce:" ++ nonce, "x-ca-timestamp:" ++ ts, uri]) ∧
    (∀ b : String, b.isEmpty = false →
      request_string_to_sign contentMd5 ak uid nonce ts method uri (some b) =
        String.intercalate "\n"
          [method, "application/json", contentMd5 b, "application/json;charset=UTF-8",
           "x-ca-key:" ++ ak, "x-ca-nonce:" ++ nonce, "x-ca-timestamp:" ++ ts, uri]) := by
  constructor
  · rfl
  · intro b hb
    simp [request_string_to_sign, get_authenticated_headers, string_to_sign, hb, hget, hgetD]

/-- Witness for C5: a concrete signed request with body `"x"`. -/
theorem C5_canonical_string_witness :
    ("x".isEmpty = false) ∧
    (request_string_to_sign (fun _ => "MD5X") "AK" "U" "N" "TS" "POST" "/artemis/api/p" (some "x") =
      String.intercalate "\n"
        ["POST", "application/json", "MD5X", "application/json;charset=UTF-8",
         "x-ca-key:AK", "x-ca-nonce:N", "x-ca-timestamp:TS", "/artemis/api/p"]) :=
  ⟨rfl, (C5_canonical_string (fun _ => "MD5X") "AK" "U" "N" "TS" "POST" "/artemis/api/p").2 "x" rfl⟩

/-- Claim C6: an envelope whose `code` field differs from the string `"0"`
makes the call fail for any HTTP status (2xx included), and the result is
the same `none` a transport-level failure produces. -/
theorem C6_envelope_code_failure (status : Nat) (body : JObj) (c : Json)
    (hcode : body.get? "code" = some c) (hne : c ≠ Json.scalar (JVal.str "0")) :
    make_request (TransportResult.response status (some body)) = none ∧
    make_request TransportResult.failure = none := by
  constructor
  · have hne' : body.isEmpty = false := by
      cases body with
      | nil => simp [JObj.get?] at hcode
      | cons a l => rfl
    simp [make_request, hne', hcode, hne]
  · rfl

/-- Witness for C6: envelope `{code: "1"}` with HTTP 200. -/
theorem C6_envelope_code_failure_witness :
    (JObj.get? [("code", Json.scalar (JVal.str "1"))] "code" =
        some (Json.scalar (JVal.str "1"))) ∧
    (Json.scalar (JVal.str "1") ≠ Json.scalar (JVal.str "0")) ∧
    make_request (TransportResult.response 200 (some [("code", Json.scalar (JVal.str "1"))])) =
      none ∧
    make_request TransportResult.failure = none := by
  refine ⟨rfl, by decide, ?_, ?_⟩
  · exact (C6_envelope_code_failure 200 [("code", Json.scalar (JVal.str "1"))]
      (Json.scalar (JVal.str "1")) rfl (by decide)).1
  · exact (C6_envelope_code_failure 200 [("code", Json.scalar (JVal.str "1"))]
      (Json.scalar (JVal.str "1")) rfl (by decide)).2

/-- Claim C10: a success envelope (`code = "0"`, HTTP 2xx) whose `data`
object has neither a `personId` nor an `id` field makes `add_person` return
the caller-supplied `person_code` as the remote person identifier. -/
theorem C10_add_person_code_fallback (status : Nat) (r : JObj)
    (d : List (String × JVal)) (pc : String)
    (hstat : 200 ≤ status ∧ status < 300)
    (hcode : r.get? "code" = some (Json.scalar (JVal.str "0")))
    (hdata : r.get? "data" = some (Json.obj d))
    (hpid : jdictGet d "personId" = none)
    (hid : jdictGet d "id" = none) :
    add_person (TransportResult.response status (some r)) pc = some (JVal.str pc) := by
  have hnonempty : r.isEmpty = false := by
    cases r with
    | nil => simp [JObj.get?] at hcode
    | cons a l => rfl
  have h400 : ¬(400 ≤ status ∧ status < 600) := by omega
  have hmr : make_request (TransportResult.response status (some r)) = some r := by
    simp [make_request, hcode, hnonempty, h400]
  simp [add_person, hmr, hnonempty, hdata, jvalOr, hpid, hid]

/-- Witness for C10: envelope `{code: "0", msg: "Success", data: {x: "y"}}`
returns the supplied code `"W1"`. -/
theorem C10_add_person_code_fallback_witness :
    (200 ≤ 200 ∧ 200 < 300) ∧
    add_person (TransportResult.response 200 (some
      [("code", Json.scalar (JVal.str "0")), ("msg", Json.scalar (JVal.str "Success")),
       ("data", Json.obj [("x", JVal.str "y")])])) "W1" = some (JVal.str "W1") :=
  ⟨by omega,
   C10_add_person_code_fallback 200
     [("code", Json.scalar (JVal.str "0")), ("msg", Json.scalar (JVal.str "Success")),
      ("data", Json.obj [("x", JVal.str "y")])]
     [("x", JVal.str "y")] "W1" (by omega) rfl rfl rfl rfl⟩

/-- A reachable-remote environment shared by the concrete scenarios: every
download succeeds, cached files exist, the base64 conversion succeeds, and
the remote system accepts every call. -/
def happyEnv : Env :=
  { face_encodings := fun _ => [[0]]
    distance := fun _ _ => 0
    similarity_threshold := mkRat 2 5
    download_image := fun _ _ => true
    path_exists := fun _ => true
    image_to_base64 := fun _ => "B64"
    add_person := fun _ => some "hk2"
    add_to_privilege_group := fun _ => true
    remove_from_privilege_group := fun _ => true
    delete_person := fun _ => true
    update_worker_status := fun _ => true
    now_utc := "2025-06-01T10:00:00"
    now_local := ⟨2025, 6, 1, 12, 0, 0⟩
    faces_dir := "faces"
    id_cards_dir := "ids" }

/-- An already-approved worker whose face image is cached. -/
def storedW1 : WorkerRecord :=
  { workerId := "w1", nationalIdNumber := "111", fullName := "A B",
    phoneNumber := "", email := "", status := "approved",
    hikcentral_person_id := "hk1", face_image_path := "faces/111_face.jpg",
    id_card_image_path := "", has_privilege_access := true,
    created_at := "2025-01-01T00:00:00" }

/-- A creation payload for a second worker. -/
def createW2 : WorkerData :=
  { nationalIdNumber := some "222", id := some "w2",
    facePhoto := some "http-face-2", fullName := some "Ali Hassan",
    validFrom := some "2025-01-01", validTo := some "2025-12-31" }

/-- C1 environment: feature extraction fails on the candidate image (no
detectable face), while the stored image encodes fine. -/
def envNoFace : Env :=
  { happyEnv with
    face_encodings := fun p => if p == "faces/222_face.jpg" then [] else [[0]] }

/-- C1 comparison environment: extraction succeeds everywhere but the
distance is 1, so there are genuinely zero matches above threshold. -/
def envNoMatch : Env :=
  { happyEnv with distance := fun _ _ => 1 }

def isAddPerson : RemoteCall → Bool
  | .addPerson _ => true
  | _ => false

/-- Claim C1 (code bug): when extraction fails on the candidate image the
gate returns `[]` — the very value a genuine zero-match scan returns — and
`handle_worker_created` then proceeds to `createPerson` and approves the
worker.  There is no distinguishable "no determination possible" outcome. -/
theorem C1_extraction_failure_conflated :
    envNoFace.face_encodings "faces/222_face.jpg" = [] ∧
    find_duplicate_faces envNoFace "faces/222_face.jpg" ["faces/111_face.jpg"] = [] ∧
    find_duplicate_faces envNoMatch "faces/222_face.jpg" ["faces/111_face.jpg"] = [] ∧
    (handle_worker_created envNoFace [storedW1] createW2).2.any isAddPerson = true ∧
    (get_by_national_id (handle_worker_created envNoFace [storedW1] createW2).1
      (some "222")).map (fun r => r.status) = some "approved" := by
  refine ⟨rfl, rfl, rfl, by decide, by decide⟩

/-- C3 environment: `add_person` succeeds with remote id `"p1"` but the
privilege-group grant fails. -/
def envGrantFails : Env :=
  { happyEnv with
    add_person := fun _ => some "p1"
    add_to_privilege_group := fun _ => false }

/-- A creation payload for the C3 scenario. -/
def createW3 : WorkerData :=
  { nationalIdNumber := some "333", id := some "w3",
    facePhoto := some "http-face-3", fullName := some "Omar Said",
    validFrom := some "2025-01-01", validTo := some "2025-12-31" }

/-- Claim C3 (code bug): when `createPerson` succeeds (`"p1"`) and the
subsequent grant fails, the persisted record does carry the remote person id
but records `has_privilege_access = true` anyway — the partial-success state
is not distinguishable from a fully granted worker. -/
theorem C3_grant_failure_marked_granted :
    envGrantFails.add_to_privilege_group "p1" = false ∧
    List.contains (handle_worker_created envGrantFails [] createW3).2
      (RemoteCall.addToPrivilegeGroup "p1") = true ∧
    (get_by_national_id (handle_worker_created envGrantFails [] createW3).1
      (some "333")).map
      (fun r => (r.status, r.hikcentral_person_id, r.has_privilege_access)) =
      some ("approved", "p1", true) := by
  refine ⟨rfl, by decide, by decide⟩

/-- Claim C2: whenever the transition reaches the admission gate and the
gate reports at least one match above threshold, the run issues no
`createPerson` call, reports the worker upstream as blocked with a reason
citing the top similarity score, and leaves the store unchanged (so no
approved record is written). -/
theorem C2_duplicate_match_blocks_provisioning
    (env : Env) (db : List WorkerRecord) (wd : WorkerData)
    (nid wid furl p : String) (s : ℚ) (rest : List (String × ℚ))
    (h1 : wd.nationalIdNumber = some nid)
    (h2 : nid.isEmpty = false)
    (h3 : pyOr wd.workerId wd.id = some wid)
    (h4 : wid.isEmpty = false)
    (h5 : already_synced db (some nid) = false)
    (h6 : pyOr wd.facePhoto wd.facePhotoUrl = some furl)
    (h7 : furl.isEmpty = false)
    (h8 : env.download_image furl (env.faces_dir ++ "/" ++ nid ++ "_face.jpg") = true)
    (h9 : find_duplicate_faces env (env.faces_dir ++ "/" ++ nid ++ "_face.jpg")
            (cached_face_paths env db) = (p, s) :: rest) :
    handle_worker_created env db wd =
      (db, [RemoteCall.updateWorkerStatus
        { worker_id := some wid
          national_id_number := some nid
          status := "blocked"
          blocked_reason := some (dupReason s) }]) := by
  unfold handle_worker_created
  simp [h1, h2, h3, h4, h5, h6, h7, h8, h9, truthy]

/-- The C2 scenario environment: one stored face, distance 2/5, so the
candidate matches it with similarity 3/5 ≥ the 2/5 threshold. -/
def envDupMatch : Env :=
  { happyEnv with distance := fun _ _ => mkRat 2 5 }

/-- The C2 candidate payload. -/
def createW4 : WorkerData :=
  { nationalIdNumber := some "444", id := some "w4", facePhoto := some "u4" }

/-- Witness for C2: against the cached face of `storedW1` the gate reports
similarity 3/5 and the run only posts the blocked status upstream. -/
theorem C2_duplicate_match_witness :
    (find_duplicate_faces envDupMatch (envDupMatch.faces_dir ++ "/" ++ "444" ++ "_face.jpg")
        (cached_face_paths envDupMatch [storedW1]) =
      [("faces/111_face.jpg", mkRat 3 5)]) ∧
    handle_worker_created envDupMatch [storedW1] createW4 =
      ([storedW1], [RemoteCall.updateWorkerStatus
        { worker_id := some "w4"
          national_id_number := some "444"
          status := "blocked"
          blocked_reason := some (dupReason (mkRat 3 5)) }]) :=
  ⟨by decide,
   C2_duplicate_match_blocks_provisioning envDupMatch [storedW1] createW4
     "444" "w4" "u4" "faces/111_face.jpg" (mkRat 3 5) []
     rfl rfl rfl rfl rfl rfl rfl rfl (by decide)⟩

/-- Claim C7: once the local record for the identity key carries a non-empty
remote person id, a repeated creation event is a no-op — no remote call of
any kind (in particular no second `createPerson`) and no store change. -/
theorem C7_repeat_creation_noop (env : Env) (db : List WorkerRecord)
    (wd : WorkerData) (nid wid : String) (r : WorkerRecord)
    (h1 : wd.nationalIdNumber = some nid)
    (h2 : nid.isEmpty = false)
    (h3 : pyOr wd.workerId wd.id = some wid)
    (h4 : wid.isEmpty = false)
    (h5 : get_by_national_id db (some nid) = some r)
    (h6 : r.hikcentral_person_id ≠ "") :
    handle_worker_created env db wd = (db, []) := by
  have h7 : already_synced db (some nid) = true := by
    unfold already_synced
    rw [h5]
    simp [h6]
  unfold handle_worker_created
  simp [h1, h2, h3, h4, h7, truthy]

/-- The record a fully successful first creation run of `createW2` leaves in
the store. -/
def approvedW2 : WorkerRecord :=
  { workerId := "w2", nationalIdNumber := "222", fullName := "Ali Hassan",
    phoneNumber := "", email := "", status := "approved",
    hikcentral_person_id := "hk2", face_image_path := "faces/222_face.jpg",
    id_card_image_path := "", has_privilege_access := true,
    created_at := "2025-06-01T10:00:00" }

/-- Witness for C7: after a fully successful first run of the creation
transition, running it again with the same payload performs no remote call
and leaves the store as it was. -/
theorem C7_repeat_creation_noop_witness :
    ((handle_worker_created happyEnv [] createW2).1 = [approvedW2]) ∧
    (get_by_national_id [approvedW2] createW2.nationalIdNumber = some approvedW2) ∧
    (approvedW2.hikcentral_person_id ≠ "") ∧
    handle_worker_created happyEnv [approvedW2] createW2 = ([approvedW2], []) :=
  ⟨by decide, by decide, by decide,
   C7_repeat_creation_noop happyEnv [approvedW2] createW2 "222" "w2" approvedW2
     rfl rfl rfl rfl (by decide) (by decide)⟩

/-- A blocking payload whose `blockedReason` key is present but empty. -/
def blockEmptyReason : WorkerData :=
  { nationalIdNumber := some "111", blockedReason := some "" }

/-- Counterexample to claim C4: a blocking event without a non-empty
`blockedReason` is not rejected — the remote revoke call is made — and the
transition persists the empty reason. -/
theorem C4_counterexample :
    truthy blockEmptyReason.blockedReason = false ∧
    (handle_worker_blocked happyEnv [storedW1] blockEmptyReason).2 =
      [RemoteCall.removeFromPrivilegeGroup "hk1"] ∧
    (get_by_national_id (handle_worker_blocked happyEnv [storedW1] blockEmptyReason).1
      (some "111")).map (fun r => (r.status, r.blockedReason)) =
      some ("blocked", some "") := by
  decide

/-- Claim C4 as amended: blocking is never rejected for lack of a reason.
Whenever a provisioned record exists, the revoke call is attempted; when it
succeeds, the persisted `blockedReason` is the payload value if the key is
present (even when empty) and the fixed non-empty default otherwise. -/
theorem C4_amended_block_reason_defaulted (env : Env) (db : List WorkerRecord)
    (wd : WorkerData) (r : WorkerRecord)
    (h1 : get_by_national_id db wd.nationalIdNumber = some r)
    (h2 : r.hikcentral_person_id ≠ "") :
    (handle_worker_blocked env db wd).2 =
      [RemoteCall.removeFromPrivilegeGroup r.hikcentral_person_id] ∧
    (env.remove_from_privilege_group r.hikcentral_person_id = true →
      (handle_worker_blocked env db wd).1 =
        update_where db wd.nationalIdNumber (fun x =>
          { x with
            status := "blocked"
            blockedReason := some (wd.blockedReason.getD defaultBlockedReason)
            has_privilege_access := false
            blocked_at := some env.now_utc })) := by
  unfold handle_worker_blocked
  have hne : (r.hikcentral_person_id == "") = false := by
    simp [h2]
  by_cases hrm : env.remove_from_privilege_group r.hikcentral_person_id
  · simp [h1, hne, hrm]
  · simp [h1, hne, hrm]

/-- A blocking payload with no `blockedReason` key at all. -/
def blockNoReason : WorkerData := { nationalIdNumber := some "111" }

/-- Witness for the amended C4: blocking `storedW1` with a reason-less
payload still issues the revoke call, and the store ends up with the default
reason persisted. -/
theorem C4_amended_witness :
    (get_by_national_id [storedW1] blockNoReason.nationalIdNumber = some storedW1 ∧
     storedW1.hikcentral_person_id ≠ "") ∧
    (handle_worker_blocked happyEnv [storedW1] blockNoReason).2 =
      [RemoteCall.removeFromPrivilegeGroup storedW1.hikcentral_person_id] ∧
    (get_by_national_id (handle_worker_blocked happyEnv [storedW1] blockNoReason).1
      (some "111")).map (fun r => r.blockedReason) = some (some defaultBlockedReason) :=
  ⟨⟨by decide, by decide⟩,
   (C4_amended_block_reason_defaulted happyEnv [storedW1] blockNoReason storedW1
     (by decide) (by decide)).1,
   by decide⟩

/-- Claim C8: the validity window. (a) With parseable explicit `validFrom`
and `validTo` dates, the window is that date at `T00:00:00+02:00` to that
date at `T23:59:59+02:00`. (b) Without usable explicit dates, a truthy
parseable `createdAt` gives its wall-clock time at `+02:00` and the same
time 3650 days later. (c) With no usable `createdAt` either, the current
time is used the same way. (d) The end-to-end scenario: the spec payload
yields one `createPerson` call with exactly that window, one grant call, one
upstream approval, and an approved stored record. -/
theorem C8_validity_window :
    (∀ (vf vt : String) (f t : Nat × Nat × Nat) (ca : Option String) (now : DateTime),
      vf.isEmpty = false → vt.isEmpty = false →
      parseYMD vf = some f → parseYMD vt = some t →
      derive_validity_window (some vf) (some vt) ca now =
        some (fmtYMD f ++ "T00:00:00" ++ "+02:00", fmtYMD t ++ "T23:59:59" ++ "+02:00")) ∧
    (∀ (vf vt : Option String) (ca : String) (dt now : DateTime),
      (truthy vf && truthy vt) = false → ca.isEmpty = false →
      parse_iso_datetime (replaceZ ca) = some dt →
      derive_validity_window vf vt (some ca) now =
        some (dt.strftimeFull ++ "+02:00", (dt.addDays 3650).strftimeFull ++ "+02:00")) ∧
    (∀ (vf vt ca : Option String) (now : DateTime),
      (truthy vf && truthy vt) = false → truthy ca = false →
      derive_validity_window vf vt ca now =
        some (now.strftimeFull ++ "+02:00", (now.addDays 3650).strftimeFull ++ "+02:00")) ∧
    handle_worker_created happyEnv [] createW2 =
      ([approvedW2],
       [RemoteCall.addPerson
          { person_code := "w2", family_name := "Ali", given_name := "Hassan",
            gender := 1, phone_no := "", email := "", face_data := "B64",
            begin_time := "2025-01-01T00:00:00+02:00",
            end_time := "2025-12-31T23:59:59+02:00" },
        RemoteCall.addToPrivilegeGroup "hk2",
        RemoteCall.updateWorkerStatus
          { worker_id := some "w2", national_id_number := some "222",
            status := "approved", external_id := some "hk2" }]) := by
  refine ⟨?_, ?_, ?_, by decide⟩
  · intro vf vt f t ca now hvf hvt hf ht
    unfold derive_validity_window
    simp [truthy, hvf, hvt, hf, ht]
  · intro vf vt ca dt now hvfvt hca hdt
    unfold derive_validity_window
    rw [hvfvt]
    simp [truthy, hca, hdt]
  · intro vf vt ca now hvfvt hca
    unfold derive_validity_window
    rw [hvfvt]
    simp [hca]

/-- Witness for C8: the three window derivations at concrete inputs (the
spec dates, the spec `createdAt`, and no timestamp at all). -/
theorem C8_validity_window_witness :
    ("2025-01-01".isEmpty = false ∧ parseYMD "2025-01-01" = some (2025, 1, 1) ∧
     parseYMD "2025-12-31" = some (2025, 12, 31)) ∧
    derive_validity_window (some "2025-01-01") (some "2025-12-31") none
      ⟨2025, 6, 1, 0, 0, 0⟩ =
      some ("2025-01-01T00:00:00+02:00", "2025-12-31T23:59:59+02:00") ∧
    (parse_iso_datetime (replaceZ "2025-11-20T21:12:40.643Z") =
      some ⟨2025, 11, 20, 21, 12, 40⟩) ∧
    derive_validity_window none none (some "2025-11-20T21:12:40.643Z")
      ⟨2025, 6, 1, 0, 0, 0⟩ =
      some ("2025-11-20T21:12:40+02:00", "2035-11-18T21:12:40+02:00") ∧
    derive_validity_window none none none ⟨2025, 6, 1, 12, 0, 0⟩ =
      some ("2025-06-01T12:00:00+02:00", "2035-05-30T12:00:00+02:00") :=
  ⟨⟨rfl, by decide, by decide⟩,
   C8_validity_window.1 "2025-01-01" "2025-12-31" (2025, 1, 1) (2025, 12, 31) none
     ⟨2025, 6, 1, 0, 0, 0⟩ rfl rfl (by decide) (by decide),
   by decide,
   C8_validity_window.2.1 none none "2025-11-20T21:12:40.643Z" ⟨2025, 11, 20, 21, 12, 40⟩
     ⟨2025, 6, 1, 0, 0, 0⟩ rfl rfl (by decide),
   C8_validity_window.2.2.1 none none none ⟨2025, 6, 1, 12, 0, 0⟩ rfl rfl⟩

/-- A creation event whose tag matches the dispatcher only in spelling, not
in case. -/
def evUpperCase : Event :=
  { type := some "Worker.Created", workers := some [createW2] }

/-- The same event with the exact lowercase tag. -/
def evLowerCase : Event :=
  { type := some "worker.created", workers := some [createW2] }

/-- Counterexample to claim C9: dispatch is not case-insensitive — the tag
`"Worker.Created"` is treated as unrecognized (no store change, no remote
call) while `"worker.created"` with the same payload runs the creation
transition. -/
theorem C9_counterexample :
    process_single_event happyEnv [] evUpperCase = ([], []) ∧
    (process_single_event happyEnv [] evLowerCase).2 ≠ [] := by
  decide

/-- Claim C9 as amended: dispatch selects the transition by exact,
case-sensitive comparison of the event-type tag; an event whose tag matches
no recognized type is dropped with no effect, and the rest of the batch is
still processed. -/
theorem C9_amended_dispatch (env : Env) (db : List WorkerRecord) (ev : Event)
    (t : String) (rest : List Event)
    (h1 : ev.type = some t)
    (h2 : recognized_event_type t = false) :
    process_single_event env db ev = (db, []) ∧
    process_events env db (ev :: rest) = process_events env db rest := by
  have h2' := h2
  unfold recognized_event_type at h2'
  simp at h2'
  obtain ⟨⟨⟨⟨⟨⟨⟨⟨a1, a2⟩, a3⟩, a4⟩, a5⟩, a6⟩, a7⟩, a8⟩, a9⟩ := h2'
  have hs : process_single_event env db ev = (db, []) := by
    unfold process_single_event
    rw [h1]
    simp [a1, a2, a3, a4, a5, a6, a7, a8, a9]
  refine ⟨hs, ?_⟩
  unfold process_events
  simp only [hs, List.nil_append]
  cases rest with
  | nil => rfl
  | cons e r => rfl

/-- Witness for the amended C9: the miscased event is dropped and the batch
continues with the remaining events. -/
theorem C9_amended_dispatch_witness :
    (evUpperCase.type = some "Worker.Created" ∧
     recognized_event_type "Worker.Created" = false) ∧
    process_single_event happyEnv [] evUpperCase = ([], []) ∧
    process_events happyEnv [] [evUpperCase, evLowerCase] =
      process_events happyEnv [] [evLowerCase] :=
  ⟨⟨rfl, by decide⟩,
   (C9_amended_dispatch happyEnv [] evUpperCase "Worker.Created" [evLowerCase]
     rfl (by decide)).1,
   (C9_amended_dispatch happyEnv [] evUpperCase "Worker.Created" [evLowerCase]
     rfl (by decide)).2⟩
